import Mathlib

/-!
# The debug dashboard helpers of `ui/debug.js`

A shallow embedding of `timeFmt`, `createHistogram`, `createPieChart`,
`createStackedBars` and `loadData`, followed by the properties proved of them.

Conventions of the embedding.

* A JavaScript number is an exact rational (`ℚ`).  Comparisons and the division by
  `1000.0` are therefore exact; the binary rounding of IEEE doubles is not modelled.
* `Number.prototype.toFixed`, `JSON.parse`, `document.getElementById`, the `innerText`
  setter, `console.log` and the `Chart` constructor are primitives of the host, not of
  this repository.  `toFixed` follows the steps of ECMA-262 on the exact value,
  `JSON.parse` is a parameter of `loadData`, the document is a finite association of
  ids to elements, and `new Chart(ctx, config)` is the record of its arguments.
* A thrown exception is an `Except.error`.  Where a function mutates the document
  before it throws, it returns the document it leaves behind next to its result.
-/

namespace Debug

/-! ## Host primitives -/

/-- Exceptions thrown by the host. -/
inductive JsError where
  | typeError
  | syntaxError
deriving DecidableEq, Repr

/-- The method `Number.prototype.toFixed(fractionDigits)` after ECMA-262, on an exact value:
the sign is split off, `n` is the integer with `n / 10^f` closest to `x` (the larger one on
a tie), its decimal digits are padded with zeros to at least `f + 1` characters and the
point is put before the last `f` of them. -/
def toFixed (x : ℚ) (fractionDigits : Nat) : String :=
  let s := if x < 0 then "-" else ""
  let x := if x < 0 then -x else x
  let n : Nat := (x * 10 ^ fractionDigits + 1 / 2).floor.toNat
  let m : List Char := Nat.toDigits 10 n
  if fractionDigits ≠ 0 then
    let k := m.length
    let m := if k ≤ fractionDigits then List.replicate (fractionDigits + 1 - k) '0' ++ m else m
    let k := if k ≤ fractionDigits then fractionDigits + 1 else k
    s ++ String.mk (m.take (k - fractionDigits)) ++ "." ++ String.mk (m.drop (k - fractionDigits))
  else
    s ++ String.mk m

/-- An element of the page: its text, and the handle of its 2d drawing context when it
has a `getContext` method that yields one. -/
structure Element where
  innerText : String
  getContext : Option Nat
deriving DecidableEq, Repr

/-- The page: elements keyed by id, in document order. -/
abbrev Document := List (String × Element)

/-- The call `document.getElementById(id)`: the first element with that id, `none` for `null`. -/
def getElementById : Document → String → Option Element
  | [], _ => none
  | (key, el) :: rest, id => if key = id then some el else getElementById rest id

/-- The page after `innerText` of the first element with the given id was assigned. -/
def setInnerText : Document → String → String → Document
  | [], _, _ => []
  | (key, el) :: rest, id, text =>
    if key = id then (key, { el with innerText := text }) :: rest
    else (key, el) :: setInnerText rest id text

/-- The expression `document.getElementById(id).getContext('2d')`: a `TypeError` when the id
resolves to nothing or the element has no drawing context. -/
def getContext2d (document : Document) (id : String) : Except JsError Nat :=
  match getElementById document id with
  | none => .error .typeError
  | some el =>
    match el.getContext with
    | none => .error .typeError
    | some ctx => .ok ctx

/-- The statement `document.getElementById(id).innerText = text`: a `TypeError` when the id
resolves to nothing. -/
def assignInnerText (document : Document) (id text : String) : Except JsError Document :=
  match getElementById document id with
  | none => .error .typeError
  | some _ => .ok (setInnerText document id text)

/-! ## Chart configuration objects -/

structure GridLines where
  display : Bool
deriving DecidableEq, Repr

structure Axis where
  stacked : Option Bool
  gridLines : Option GridLines
  display : Option Bool
deriving DecidableEq, Repr

structure Scales where
  xAxes : List Axis
  yAxes : List Axis
deriving DecidableEq, Repr

structure Legend where
  display : Bool
  position : Option String
deriving DecidableEq, Repr

structure Title where
  display : Bool
deriving DecidableEq, Repr

structure Options where
  responsive : Bool
  legend : Legend
  title : Title
  scales : Option Scales
deriving DecidableEq, Repr

/-- A dataset of a bar chart. -/
structure BarDataset where
  label : String
  backgroundColor : String
  borderColor : String
  borderWidth : Nat
  data : List ℚ
deriving DecidableEq, Repr

/-- The dataset of a pie chart. -/
structure PieDataset where
  data : List ℚ
  backgroundColor : List String
deriving DecidableEq, Repr

structure ChartData (D : Type) where
  labels : List String
  datasets : List D
deriving DecidableEq, Repr

/-- The object `new Chart(ctx, {type, data, options})`. -/
structure Chart (D : Type) where
  ctx : Nat
  type : String
  data : ChartData D
  options : Options
deriving DecidableEq, Repr

/-! ## Inputs -/

structure HistogramStat where
  min : ℚ
  average : ℚ
  max : ℚ
deriving DecidableEq, Repr

structure NamedValue where
  name : String
  value : ℚ
deriving DecidableEq, Repr

structure TimeSeries where
  name : String
  data : List ℚ
deriving DecidableEq, Repr

/-! ## `timeFmt` -/

/-- The function `timeFmt(usValue)`. -/
def timeFmt (usValue : ℚ) : String :=
  let unit := "us"
  let (usValue, unit) := if usValue > 1000 then (usValue / 1000, "ms") else (usValue, unit)
  let (usValue, unit) := if usValue > 1000 then (usValue / 1000, "s") else (usValue, unit)
  toFixed usValue 3 ++ unit

/-- The `labels` literal of `createHistogram`. -/
def histogramLabels : List String :=
  ["0-1us", "1-2us", "2-4us", "4-8us", "8-16us", "16-32us", "32-64us", "64-128us",
   "128-256us", "256-512us", "512us-1ms", "1-2ms", "2-4ms", "4-8ms", "8-16ms", "16-32ms",
   "32-64ms", "64-128ms", "128-256ms", "256-512ms", "512ms-1s", "1-2s"]

/-- The object `barChartData` of `createHistogram`. -/
def histogramData (data : List ℚ) : ChartData BarDataset :=
  { labels := histogramLabels
    datasets := [{ label := "Operations", backgroundColor := "blue", borderColor := "blue",
                   borderWidth := 1, data := data }] }

/-- The object `options` of `createHistogram`, after the `noaxis` adjustment. -/
def histogramOptions (noaxis : Bool) : Options :=
  let xAxis : Axis := { stacked := none, gridLines := some { display := false }, display := none }
  let yAxis : Axis := { stacked := none, gridLines := some { display := false }, display := none }
  let (xAxis, yAxis) :=
    if noaxis then ({ xAxis with display := some false }, { yAxis with display := some false })
    else (xAxis, yAxis)
  { responsive := true
    legend := { display := false, position := none }
    title := { display := false }
    scales := some { xAxes := [xAxis], yAxes := [yAxis] } }

/-- The function `createHistogram(id, data, stats, noaxis)` run on a page: the chart or the
exception, and the page it leaves behind. -/
def createHistogram (document : Document) (id : String) (data : List ℚ) (stats : HistogramStat)
    (noaxis : Bool) : Except JsError (Chart BarDataset) × Document :=
  let barChartData := histogramData data
  let options := histogramOptions noaxis
  match getContext2d document id with
  | .error e => (.error e, document)
  | .ok ctx =>
    match assignInnerText document (id ++ "-min") (timeFmt stats.min) with
    | .error e => (.error e, document)
    | .ok document =>
      match assignInnerText document (id ++ "-avg") (timeFmt stats.average) with
      | .error e => (.error e, document)
      | .ok document =>
        match assignInnerText document (id ++ "-max") (timeFmt stats.max) with
        | .error e => (.error e, document)
        | .ok document =>
          (.ok { ctx := ctx, type := "bar", data := barChartData, options := options }, document)

/-! ## `createPieChart` -/

/-- The array `colors` of `createPieChart` and of `createStackedBars`. -/
def colors : List String := ["red", "green", "blue", "orange", "purple", "yellow"]

/-- The expression `colors[colorIndex % colors.length]`. -/
def colorAt (colorIndex : Nat) : String :=
  colors.get ⟨colorIndex % colors.length, Nat.mod_lt _ (by decide)⟩

/-- One call of the `forEach` callback of `createPieChart`: three pushes. -/
def pieStep (chartData : ChartData PieDataset) (item : NamedValue) (colorIndex : Nat) :
    ChartData PieDataset :=
  { labels := chartData.labels ++ [item.name]
    datasets := chartData.datasets.modifyHead fun d =>
      { data := d.data ++ [item.value]
        backgroundColor := d.backgroundColor ++ [colorAt colorIndex] } }

/-- The loop `series.forEach(function (item, colorIndex) ...)`, `colorIndex` counting up. -/
def pieLoop : List NamedValue → Nat → ChartData PieDataset → ChartData PieDataset
  | [], _, chartData => chartData
  | item :: rest, colorIndex, chartData => pieLoop rest (colorIndex + 1) (pieStep chartData item colorIndex)

/-- The object `chartData` of `createPieChart` once the loop has run. -/
def pieChartData (series : List NamedValue) : ChartData PieDataset :=
  pieLoop series 0 { labels := [], datasets := [{ data := [], backgroundColor := [] }] }

/-- The object `options` of `createPieChart`. -/
def pieOptions : Options :=
  { responsive := true
    legend := { display := false, position := none }
    title := { display := false }
    scales := none }

/-- The function `createPieChart(id, series)` on a page. -/
def createPieChart (document : Document) (id : String) (series : List NamedValue) :
    Except JsError (Chart PieDataset) :=
  let chartData := pieChartData series
  let options := pieOptions
  match getContext2d document id with
  | .error e => .error e
  | .ok ctx => .ok { ctx := ctx, type := "pie", data := chartData, options := options }

/-! ## `createStackedBars` -/

/-- The loop `while (i > 0) { i = i - 1; legend.push(i + ''); }`. -/
def legendLoop : Nat → List String → List String
  | 0, legend => legend
  | i + 1, legend => legendLoop i (legend ++ [toString i])

/-- The array `legend` of `createStackedBars` after `legend.push('now')`. -/
def stackedLegend : List String :=
  legendLoop 60 [] ++ ["now"]

/-- One call of the `forEach` callback of `createStackedBars`: one push. -/
def stackedStep (barChartData : ChartData BarDataset) (val : TimeSeries) (colorIndex : Nat) :
    ChartData BarDataset :=
  { barChartData with
    datasets := barChartData.datasets ++
      [{ label := val.name, backgroundColor := colorAt colorIndex,
         borderColor := colorAt colorIndex, borderWidth := 1, data := val.data }] }

/-- The loop `series.forEach(function (val, colorIndex) ...)`, `colorIndex` counting up. -/
def stackedLoop : List TimeSeries → Nat → ChartData BarDataset → ChartData BarDataset
  | [], _, barChartData => barChartData
  | val :: rest, colorIndex, barChartData =>
    stackedLoop rest (colorIndex + 1) (stackedStep barChartData val colorIndex)

/-- The object `barChartData` of `createStackedBars` once the loop has run. -/
def stackedBarsData (series : List TimeSeries) : ChartData BarDataset :=
  stackedLoop series 0 { labels := stackedLegend, datasets := [] }

/-- The object `options` of `createStackedBars`. -/
def stackedOptions : Options :=
  { responsive := true
    legend := { display := true, position := some "right" }
    title := { display := false }
    scales := some
      { xAxes := [{ stacked := some true, gridLines := some { display := false }, display := none }]
        yAxes := [{ stacked := some true, gridLines := none, display := none }] } }

/-- The function `createStackedBars(id, series)` on a page. -/
def createStackedBars (document : Document) (id : String) (series : List TimeSeries) :
    Except JsError (Chart BarDataset) :=
  let barChartData := stackedBarsData series
  let options := stackedOptions
  match getContext2d document id with
  | .error e => .error e
  | .ok ctx => .ok { ctx := ctx, type := "bar", data := barChartData, options := options }

/-! ## `loadData` -/

/-- How the request of `loadData` ends: `onload` with a status and a body, or `onerror`. -/
inductive Completion where
  | load (status : Nat) (response : String)
  | error
deriving DecidableEq, Repr

/-- What a handler of `loadData` does to the outside: it calls the continuation or it logs. -/
inductive Effect (J : Type) where
  | callback (value : J)
  | log (message : String)
deriving DecidableEq, Repr

/-- The handler `req.onload`; `jsonParse` is the host's `JSON.parse`. -/
def onload {J : Type} (jsonParse : String → Except JsError J) (status : Nat) (response : String) :
    Except JsError (List (Effect J)) :=
  if status = 200 then
    match jsonParse response with
    | .error e => .error e
    | .ok value => .ok [Effect.callback value]
  else
    .ok [Effect.log ("Expected 200 from server but got " ++ toString status)]

/-- The handler `req.onerror`. -/
def onerror {J : Type} : Except JsError (List (Effect J)) :=
  .ok [Effect.log "Bummer (got error when doing request)"]

/-- The function `loadData(callbackOnComplete)` up to the completion of its request: the
effects of the handler that runs, or the exception that escapes it. -/
def loadData {J : Type} (jsonParse : String → Except JsError J) (completion : Completion) :
    Except JsError (List (Effect J)) :=
  match completion with
  | .load status response => onload jsonParse status response
  | .error => onerror


/-- The values the continuation was called with, in order; none when the handler threw
before calling it. -/
def callbacks {J : Type} : Except JsError (List (Effect J)) → List J
  | .error _ => []
  | .ok effects => effects.filterMap fun
    | .callback value => some value
    | .log _ => none

/-- The messages written with `console.log`, in order. -/
def logs {J : Type} : Except JsError (List (Effect J)) → List String
  | .error _ => []
  | .ok effects => effects.filterMap fun
    | .callback _ => none
    | .log message => some message

/-! ## A fragment of `JSON.parse`

Used only to run `loadData` on concrete bodies; the properties of `loadData` are stated
for an arbitrary `jsonParse`. -/

/-- Decoded JSON values. -/
inductive Json where
  | null
  | bool (b : Bool)
  | num (n : Int)
  | str (s : String)
  | arr (elems : List Json)
  | obj (members : List (String × Json))
deriving Repr

namespace JSON

/-- JSON white space is skipped. -/
def skipWs (cs : List Char) : List Char :=
  cs.dropWhile fun c => c == ' ' || c == '\n' || c == '\r' || c == '\t'

/-- An integer literal without sign: digits, with no leading zero. -/
def parseNat (cs : List Char) : Option (Nat × List Char) :=
  match cs.span Char.isDigit with
  | ([], _) => none
  | ('0' :: _ :: _, _) => none
  | (ds, rest) => some (ds.foldl (fun n c => 10 * n + (c.toNat - '0'.toNat)) 0, rest)

/-- The rest of a string literal after its opening quote; escapes are not covered. -/
def parseString (cs : List Char) : Option (String × List Char) :=
  match cs.span fun c => c != '"' && c != '\\' && c.toNat ≥ 32 with
  | (body, '"' :: rest) => some (String.mk body, rest)
  | _ => none

mutual
/-- One JSON value at the head of the input. -/
def parseValue : Nat → List Char → Option (Json × List Char)
  | 0, _ => none
  | fuel + 1, cs =>
    match skipWs cs with
    | 'n' :: 'u' :: 'l' :: 'l' :: rest => some (.null, rest)
    | 't' :: 'r' :: 'u' :: 'e' :: rest => some (.bool true, rest)
    | 'f' :: 'a' :: 'l' :: 's' :: 'e' :: rest => some (.bool false, rest)
    | '"' :: rest => (parseString rest).map fun (s, rest) => (.str s, rest)
    | '-' :: rest => (parseNat rest).map fun (n, rest) => (.num (-(n : Int)), rest)
    | '[' :: rest =>
      match skipWs rest with
      | ']' :: rest => some (.arr [], rest)
      | rest => (parseElems fuel rest).map fun (es, rest) => (.arr es, rest)
    | '{' :: rest =>
      match skipWs rest with
      | '}' :: rest => some (.obj [], rest)
      | rest => (parseMembers fuel rest).map fun (ms, rest) => (.obj ms, rest)
    | rest => (parseNat rest).map fun (n, rest) => (.num (n : Int), rest)
/-- The elements of a non-empty array, up to and including the closing bracket. -/
def parseElems : Nat → List Char → Option (List Json × List Char)
  | 0, _ => none
  | fuel + 1, cs =>
    match parseValue fuel cs with
    | none => none
    | some (v, rest) =>
      match skipWs rest with
      | ']' :: rest => some ([v], rest)
      | ',' :: rest => (parseElems fuel rest).map fun (es, rest) => (v :: es, rest)
      | _ => none
/-- The members of a non-empty object, up to and including the closing brace. -/
def parseMembers : Nat → List Char → Option (List (String × Json) × List Char)
  | 0, _ => none
  | fuel + 1, cs =>
    match skipWs cs with
    | '"' :: rest =>
      match parseString rest with
      | none => none
      | some (key, rest) =>
        match skipWs rest with
        | ':' :: rest =>
          match parseValue fuel rest with
          | none => none
          | some (v, rest) =>
            match skipWs rest with
            | '}' :: rest => some ([(key, v)], rest)
            | ',' :: rest => (parseMembers fuel rest).map fun (ms, rest) => ((key, v) :: ms, rest)
            | _ => none
        | _ => none
    | _ => none
end

/-- The host function `JSON.parse` on texts made of objects, arrays, strings without escapes,
integer literals, `true`, `false` and `null`: the value, or a `SyntaxError` when the text
is not one value followed by white space only. -/
def parse (text : String) : Except JsError Json :=
  match parseValue (text.length + 1) text.data with
  | some (v, rest) => if skipWs rest = [] then .ok v else .error .syntaxError
  | none => .error .syntaxError

end JSON

/-! ## Sample pages -/

/-- A page with a canvas `latency` and its three summary slots. -/
def histogramPage : Document :=
  [("latency", { innerText := "", getContext := some 1 }),
   ("latency-min", { innerText := "-", getContext := none }),
   ("latency-avg", { innerText := "-", getContext := none }),
   ("latency-max", { innerText := "-", getContext := none })]

/-- A page with summary slots but no canvas `latency`. -/
def slotsOnlyPage : Document :=
  [("latency-min", { innerText := "-", getContext := none }),
   ("latency-avg", { innerText := "-", getContext := none }),
   ("latency-max", { innerText := "-", getContext := none })]

/-! ## Decimal digits -/

theorem getElementById_setInnerText_ne (document : Document) (id other text : String)
    (h : other ≠ id) :
    getElementById (setInnerText document id text) other = getElementById document other := by
  induction document with
  | nil => rfl
  | cons entry rest ih =>
    obtain ⟨key, el⟩ := entry
    by_cases hk : key = id
    · subst hk
      have hne : ¬ key = other := fun e => h e.symm
      simp [setInnerText, getElementById, hne]
    · by_cases ho : key = other
      · subst ho
        simp [setInnerText, getElementById, hk]
      · simp [setInnerText, getElementById, hk, ho, ih]

theorem getElementById_setInnerText_self (document : Document) (id text : String) :
    getElementById (setInnerText document id text) id =
      (getElementById document id).map fun el => { el with innerText := text } := by
  induction document with
  | nil => rfl
  | cons entry rest ih =>
    obtain ⟨key, el⟩ := entry
    by_cases hk : key = id
    · simp [setInnerText, getElementById, hk]
    · simp [setInnerText, getElementById, hk, ih]

theorem append_ne_append (id a b : String) (h : a ≠ b) : id ++ a ≠ id ++ b := by
  intro e
  apply h
  have hd := congrArg String.data e
  simp only [String.data_append] at hd
  exact String.ext (List.append_cancel_left hd)

theorem assignInnerText_ok (document : Document) (id text : String)
    (h : getElementById document id ≠ none) :
    assignInnerText document id text = .ok (setInnerText document id text) := by
  unfold assignInnerText
  cases hg : getElementById document id with
  | none => exact absurd hg h
  | some el => rfl

/-- The run of `createHistogram` when the surface and the three slots resolve. -/
theorem createHistogram_resolved (document : Document) (id : String) (data : List ℚ)
    (stats : HistogramStat) (noaxis : Bool) (ctx : Nat)
    (hctx : getContext2d document id = .ok ctx)
    (hmin : getElementById document (id ++ "-min") ≠ none)
    (havg : getElementById document (id ++ "-avg") ≠ none)
    (hmax : getElementById document (id ++ "-max") ≠ none) :
    createHistogram document id data stats noaxis =
      (.ok { ctx := ctx, type := "bar", data := histogramData data,
             options := histogramOptions noaxis },
       setInnerText (setInnerText (setInnerText document
         (id ++ "-min") (timeFmt stats.min))
         (id ++ "-avg") (timeFmt stats.average))
         (id ++ "-max") (timeFmt stats.max)) := by
  have h1 := assignInnerText_ok document (id ++ "-min") (timeFmt stats.min) hmin
  have havg' : getElementById (setInnerText document (id ++ "-min") (timeFmt stats.min))
      (id ++ "-avg") ≠ none := by
    rw [getElementById_setInnerText_ne _ _ _ _ (append_ne_append id _ _ (by decide))]
    exact havg
  have h2 := assignInnerText_ok _ (id ++ "-avg") (timeFmt stats.average) havg'
  have hmax' : getElementById (setInnerText (setInnerText document (id ++ "-min")
      (timeFmt stats.min)) (id ++ "-avg") (timeFmt stats.average)) (id ++ "-max") ≠ none := by
    rw [getElementById_setInnerText_ne _ _ _ _ (append_ne_append id _ _ (by decide)),
      getElementById_setInnerText_ne _ _ _ _ (append_ne_append id _ _ (by decide))]
    exact hmax
  have h3 := assignInnerText_ok _ (id ++ "-max") (timeFmt stats.max) hmax'
  simp only [createHistogram, hctx, h1, h2, h3]

/-- The three slots of the page `createHistogram` leaves behind. -/
theorem slots_after_writes (document : Document) (id tmin tavg tmax : String)
    (hmin : getElementById document (id ++ "-min") ≠ none)
    (havg : getElementById document (id ++ "-avg") ≠ none)
    (hmax : getElementById document (id ++ "-max") ≠ none) :
    let after := setInnerText (setInnerText (setInnerText document
      (id ++ "-min") tmin) (id ++ "-avg") tavg) (id ++ "-max") tmax
    (getElementById after (id ++ "-min")).map Element.innerText = some tmin ∧
    (getElementById after (id ++ "-avg")).map Element.innerText = some tavg ∧
    (getElementById after (id ++ "-max")).map Element.innerText = some tmax := by
  intro after
  obtain ⟨emin, hemin⟩ := Option.ne_none_iff_exists'.mp hmin
  obtain ⟨eavg, heavg⟩ := Option.ne_none_iff_exists'.mp havg
  obtain ⟨emax, hemax⟩ := Option.ne_none_iff_exists'.mp hmax
  refine ⟨?_, ?_, ?_⟩
  · simp only [after]
    rw [getElementById_setInnerText_ne _ _ _ _ (append_ne_append id _ _ (by decide)),
      getElementById_setInnerText_ne _ _ _ _ (append_ne_append id _ _ (by decide)),
      getElementById_setInnerText_self, hemin]
    rfl
  · simp only [after]
    rw [getElementById_setInnerText_ne _ _ _ _ (append_ne_append id _ _ (by decide)),
      getElementById_setInnerText_self,
      getElementById_setInnerText_ne _ _ _ _ (append_ne_append id _ _ (by decide)), heavg]
    rfl
  · simp only [after]
    rw [getElementById_setInnerText_self,
      getElementById_setInnerText_ne _ _ _ _ (append_ne_append id _ _ (by decide)),
      getElementById_setInnerText_ne _ _ _ _ (append_ne_append id _ _ (by decide)), hemax]
    rfl

/-! ## `createHistogram` -/

/-- C6: with a resolving surface and slots, `createHistogram` on a 22-entry count array
yields the fixed 22-label ladder, one dataset holding the counts unchanged, and writes
`timeFmt` of `min`, `average` and `max` to the `-min`, `-avg` and `-max` slots. -/
theorem createHistogram_renders (document : Document) (id : String) (data : List ℚ)
    (stats : HistogramStat) (noaxis : Bool) (ctx : Nat)
    (hlen : data.length = 22)
    (hctx : getContext2d document id = .ok ctx)
    (hmin : getElementById document (id ++ "-min") ≠ none)
    (havg : getElementById document (id ++ "-avg") ≠ none)
    (hmax : getElementById document (id ++ "-max") ≠ none) :
    ∃ (chart : Chart BarDataset) (after : Document),
      createHistogram document id data stats noaxis = (.ok chart, after) ∧
      chart.type = "bar" ∧
      chart.data.labels =
        ["0-1us", "1-2us", "2-4us", "4-8us", "8-16us", "16-32us", "32-64us", "64-128us",
         "128-256us", "256-512us", "512us-1ms", "1-2ms", "2-4ms", "4-8ms", "8-16ms",
         "16-32ms", "32-64ms", "64-128ms", "128-256ms", "256-512ms", "512ms-1s", "1-2s"] ∧
      chart.data.labels.length = data.length ∧
      chart.data.datasets.map BarDataset.data = [data] ∧
      (getElementById after (id ++ "-min")).map Element.innerText = some (timeFmt stats.min) ∧
      (getElementById after (id ++ "-avg")).map Element.innerText = some (timeFmt stats.average) ∧
      (getElementById after (id ++ "-max")).map Element.innerText = some (timeFmt stats.max) := by
  obtain ⟨h1, h2, h3⟩ := slots_after_writes document id (timeFmt stats.min)
    (timeFmt stats.average) (timeFmt stats.max) hmin havg hmax
  exact ⟨_, _, createHistogram_resolved document id data stats noaxis ctx hctx hmin havg hmax,
    rfl, rfl, by rw [hlen]; rfl, rfl, h1, h2, h3⟩

theorem createHistogram_renders_witness :
    timeFmt 0 = "0.000us" ∧
    (List.replicate 22 (0 : ℚ)).length = 22 ∧
    getContext2d histogramPage "latency" = .ok 1 ∧
    getElementById histogramPage ("latency" ++ "-min") ≠ none ∧
    getElementById histogramPage ("latency" ++ "-avg") ≠ none ∧
    getElementById histogramPage ("latency" ++ "-max") ≠ none ∧
    ∃ (chart : Chart BarDataset) (after : Document),
      createHistogram histogramPage "latency" (List.replicate 22 0)
        { min := 0, average := 0, max := 0 } false = (.ok chart, after) ∧
      chart.type = "bar" ∧
      chart.data.labels =
        ["0-1us", "1-2us", "2-4us", "4-8us", "8-16us", "16-32us", "32-64us", "64-128us",
         "128-256us", "256-512us", "512us-1ms", "1-2ms", "2-4ms", "4-8ms", "8-16ms",
         "16-32ms", "32-64ms", "64-128ms", "128-256ms", "256-512ms", "512ms-1s", "1-2s"] ∧
      chart.data.labels.length = (List.replicate 22 (0 : ℚ)).length ∧
      chart.data.datasets.map BarDataset.data = [List.replicate 22 0] ∧
      (getElementById after ("latency" ++ "-min")).map Element.innerText = some (timeFmt 0) ∧
      (getElementById after ("latency" ++ "-avg")).map Element.innerText = some (timeFmt 0) ∧
      (getElementById after ("latency" ++ "-max")).map Element.innerText = some (timeFmt 0) :=
  ⟨by decide!, by decide, rfl, by decide, by decide, by decide,
   createHistogram_renders histogramPage "latency" (List.replicate 22 0)
     { min := 0, average := 0, max := 0 } false 1
     (by decide) rfl (by decide) (by decide) (by decide)⟩

/-- C4, as amended: `createHistogram` does not look at the length of the count array; with a
resolving surface and slots it builds the chart for an array of any length, under the same
22 labels and with the array unchanged. -/
theorem createHistogram_any_length (document : Document) (id : String) (data : List ℚ)
    (stats : HistogramStat) (noaxis : Bool) (ctx : Nat)
    (hctx : getContext2d document id = .ok ctx)
    (hmin : getElementById document (id ++ "-min") ≠ none)
    (havg : getElementById document (id ++ "-avg") ≠ none)
    (hmax : getElementById document (id ++ "-max") ≠ none) :
    ∃ (chart : Chart BarDataset) (after : Document),
      createHistogram document id data stats noaxis = (.ok chart, after) ∧
      chart.data.labels.length = 22 ∧
      chart.data.datasets.map BarDataset.data = [data] :=
  ⟨_, _, createHistogram_resolved document id data stats noaxis ctx hctx hmin havg hmax,
    rfl, rfl⟩

theorem createHistogram_any_length_witness :
    getContext2d histogramPage "latency" = .ok 1 ∧
    getElementById histogramPage ("latency" ++ "-min") ≠ none ∧
    getElementById histogramPage ("latency" ++ "-avg") ≠ none ∧
    getElementById histogramPage ("latency" ++ "-max") ≠ none ∧
    ∃ (chart : Chart BarDataset) (after : Document),
      createHistogram histogramPage "latency" [5, 0, 7] { min := 1, average := 2, max := 3 }
        true = (.ok chart, after) ∧
      chart.data.labels.length = 22 ∧
      chart.data.datasets.map BarDataset.data = [[5, 0, 7]] :=
  ⟨rfl, by decide, by decide, by decide,
   createHistogram_any_length histogramPage "latency" [5, 0, 7]
     { min := 1, average := 2, max := 3 } true 1 rfl (by decide) (by decide) (by decide)⟩

/-- C4, refuted as stated: a 21-entry count array does not make `createHistogram` fail. -/
theorem createHistogram_accepts_21 :
    (List.replicate 21 (0 : ℚ)).length = 21 ∧
    ∃ (chart : Chart BarDataset) (after : Document),
      createHistogram histogramPage "latency" (List.replicate 21 0)
        { min := 0, average := 0, max := 0 } false = (.ok chart, after) ∧
      chart.data.datasets.map BarDataset.data = [List.replicate 21 0] :=
  ⟨by decide, _, _,
   createHistogram_resolved histogramPage "latency" (List.replicate 21 0)
     { min := 0, average := 0, max := 0 } false 1 rfl (by decide) (by decide)
     (by decide), rfl⟩

/-! ## An unresolved surface -/

theorem getContext2d_unresolved (document : Document) (id : String)
    (h : getElementById document id = none) : getContext2d document id = .error .typeError := by
  simp [getContext2d, h]

/-- C10: when the surface id resolves to no element, each of the three builders throws and
builds no chart, and `createHistogram` leaves the page as it found it. -/
theorem builders_unresolved_surface (document : Document) (id : String)
    (data : List ℚ) (stats : HistogramStat) (noaxis : Bool)
    (slices : List NamedValue) (series : List TimeSeries)
    (h : getElementById document id = none) :
    createHistogram document id data stats noaxis = (.error .typeError, document) ∧
    createPieChart document id slices = .error .typeError ∧
    createStackedBars document id series = .error .typeError := by
  have hctx := getContext2d_unresolved document id h
  refine ⟨?_, ?_, ?_⟩
  · simp only [createHistogram, hctx]
  · simp only [createPieChart, hctx]
  · simp only [createStackedBars, hctx]

theorem builders_unresolved_surface_witness :
    getElementById slotsOnlyPage "latency" = none ∧
    createHistogram slotsOnlyPage "latency" (List.replicate 22 0)
      { min := 1, average := 2, max := 3 } false = (.error .typeError, slotsOnlyPage) ∧
    createPieChart slotsOnlyPage "latency" [{ name := "a", value := 1 }] = .error .typeError ∧
    createStackedBars slotsOnlyPage "latency" [{ name := "a", data := [1] }] =
      .error .typeError :=
  ⟨by decide,
   builders_unresolved_surface slotsOnlyPage "latency" (List.replicate 22 0)
     { min := 1, average := 2, max := 3 } false [{ name := "a", value := 1 }]
     [{ name := "a", data := [1] }] (by decide)⟩

/-! ## The palette -/

theorem colorAt_eq (i : Nat) : some (colorAt i) = colors[i % 6]? := by
  unfold colorAt
  rw [List.get_eq_getElem, List.getElem?_eq_getElem]
  rfl

theorem colorAt_mod (i : Nat) : colorAt (i % 6) = colorAt i := by
  unfold colorAt
  congr 2
  exact Nat.mod_mod i 6

/-! ## `createPieChart` -/

theorem pieLoop_eq (series : List NamedValue) : ∀ (start : Nat) (labels : List String)
    (data : List ℚ) (background : List String),
    pieLoop series start
        { labels := labels, datasets := [{ data := data, backgroundColor := background }] } =
      { labels := labels ++ series.map NamedValue.name
        datasets := [{ data := data ++ series.map NamedValue.value
                       backgroundColor := background ++
                         (List.range series.length).map fun i => colorAt (start + i) }] } := by
  induction series with
  | nil => intro start labels data background; simp [pieLoop]
  | cons item rest ih =>
    intro start labels data background
    simp only [pieLoop, pieStep, List.modifyHead, ih, List.map_cons, List.length_cons,
      List.range_succ_eq_map, List.append_assoc, List.singleton_append, List.map_map]
    congr 4
    · simp [Function.comp_def]
      intro a _
      congr 1
      omega

theorem pieChartData_eq (series : List NamedValue) :
    pieChartData series =
      { labels := series.map NamedValue.name
        datasets := [{ data := series.map NamedValue.value
                       backgroundColor := (List.range series.length).map colorAt }] } := by
  rw [pieChartData, pieLoop_eq]
  simp

/-- C5: the chart data of `createPieChart` is three parallel arrays as long as the input,
with the names and the values in input order and the colour `palette[i mod 6]` at index
`i`, so that the colour at `i` is the colour at `i mod 6`. -/
theorem createPieChart_data (series : List NamedValue) :
    colors = ["red", "green", "blue", "orange", "purple", "yellow"] ∧
    (∀ (document : Document) (id : String),
      createPieChart document id series =
        (getContext2d document id).map fun ctx =>
          { ctx := ctx, type := "pie", data := pieChartData series, options := pieOptions }) ∧
    ∃ (data : List ℚ) (background : List String),
      pieChartData series =
        { labels := series.map NamedValue.name
          datasets := [{ data := data, backgroundColor := background }] } ∧
      data = series.map NamedValue.value ∧
      (series.map NamedValue.name).length = series.length ∧
      data.length = series.length ∧ background.length = series.length ∧
      ∀ i, i < series.length →
        background[i]? = colors[i % 6]? ∧ background[i]? = background[i % 6]? := by
  refine ⟨rfl, ?_, series.map NamedValue.value, (List.range series.length).map colorAt,
    pieChartData_eq series, rfl, by simp, by simp, by simp, ?_⟩
  · intro document id
    unfold createPieChart
    cases getContext2d document id <;> rfl
  · intro i hi
    have hmod : i % 6 < series.length := lt_of_le_of_lt (Nat.mod_le i 6) hi
    have h1 : ((List.range series.length).map colorAt)[i]? = some (colorAt i) := by
      simp [List.getElem?_map, List.getElem?_range hi]
    have h2 : ((List.range series.length).map colorAt)[i % 6]? = some (colorAt (i % 6)) := by
      simp [List.getElem?_map, List.getElem?_range hmod]
    rw [h1, h2, colorAt_mod, colorAt_eq]
    exact ⟨rfl, rfl⟩

/-! ## `createStackedBars` -/

/-- The dataset `createStackedBars` pushes for the series at a given index. -/
theorem stackedLoop_eq (series : List TimeSeries) : ∀ (start : Nat)
    (barChartData : ChartData BarDataset),
    stackedLoop series start barChartData =
      { labels := barChartData.labels
        datasets := barChartData.datasets ++ (series.enumFrom start).map fun p =>
          { label := p.2.name, backgroundColor := colorAt p.1, borderColor := colorAt p.1,
            borderWidth := 1, data := p.2.data } } := by
  induction series with
  | nil => intro start barChartData; simp [stackedLoop]
  | cons val rest ih =>
    intro start barChartData
    simp [stackedLoop, stackedStep, ih, List.enumFrom_cons]

theorem stackedBarsData_eq (series : List TimeSeries) :
    stackedBarsData series =
      { labels := stackedLegend
        datasets := series.enum.map fun p =>
          { label := p.2.name, backgroundColor := colorAt p.1, borderColor := colorAt p.1,
            borderWidth := 1, data := p.2.data } } := by
  rw [stackedBarsData, stackedLoop_eq]
  simp [List.enum]

theorem createStackedBars_eq (document : Document) (id : String) (series : List TimeSeries) :
    createStackedBars document id series =
      (getContext2d document id).map fun ctx =>
        { ctx := ctx, type := "bar", data := stackedBarsData series,
          options := stackedOptions } := by
  unfold createStackedBars
  cases getContext2d document id <;> rfl

/-- C9: `createStackedBars` builds one dataset per input series, in input order; dataset `i`
carries the name and the data of series `i` unchanged and `palette[i mod 6]` as both
background and border colour. -/
theorem createStackedBars_datasets (series : List TimeSeries) :
    colors = ["red", "green", "blue", "orange", "purple", "yellow"] ∧
    (∀ (document : Document) (id : String),
      createStackedBars document id series =
        (getContext2d document id).map fun ctx =>
          { ctx := ctx, type := "bar", data := stackedBarsData series,
            options := stackedOptions }) ∧
    (stackedBarsData series).datasets.length = series.length ∧
    ∀ i, i < series.length →
      ∃ (val : TimeSeries) (dataset : BarDataset),
        series[i]? = some val ∧ (stackedBarsData series).datasets[i]? = some dataset ∧
        dataset.label = val.name ∧ dataset.data = val.data ∧
        some dataset.backgroundColor = colors[i % 6]? ∧
        some dataset.borderColor = colors[i % 6]? := by
  refine ⟨rfl, fun document id => createStackedBars_eq document id series, ?_, ?_⟩
  · rw [stackedBarsData_eq]; simp
  · intro i hi
    refine ⟨series[i], BarDataset.mk series[i].name (colorAt i) (colorAt i) 1 series[i].data,
      List.getElem?_eq_getElem hi, ?_, rfl, rfl, colorAt_eq i, colorAt_eq i⟩
    rw [stackedBarsData_eq]
    simp [List.getElem?_map, List.enum, List.getElem?_enumFrom, List.getElem?_eq_getElem hi]

/-- The labels `createStackedBars` really builds: "59" down to "0", then "now". -/
theorem stackedLegend_eq :
    stackedLegend = ((List.range 60).map fun i => toString (59 - i)) ++ ["now"] := by
  decide

/-- C2, as amended: whatever the series, the label axis of `createStackedBars` is the 61
strings "59", "58", ..., "0" in descending order followed by "now". -/
theorem createStackedBars_labels (series : List TimeSeries) :
    (stackedBarsData series).labels =
      ((List.range 60).map fun i => toString (59 - i)) ++ ["now"] ∧
    ∀ (document : Document) (id : String) (chart : Chart BarDataset),
      createStackedBars document id series = .ok chart →
      chart.data.labels = ((List.range 60).map fun i => toString (59 - i)) ++ ["now"] := by
  have h : (stackedBarsData series).labels =
      ((List.range 60).map fun i => toString (59 - i)) ++ ["now"] := by
    rw [stackedBarsData_eq, stackedLegend_eq]
  refine ⟨h, ?_⟩
  intro document id chart hchart
  rw [createStackedBars_eq] at hchart
  cases hctx : getContext2d document id with
  | error e => rw [hctx] at hchart; cases hchart
  | ok ctx =>
    rw [hctx] at hchart
    cases hchart
    exact h

/-- C2, refuted as stated: the axis starts at "59" and holds "0", it is not "60" down to
"1" followed by "now". -/
theorem createStackedBars_labels_not_60_to_1 :
    (stackedBarsData []).labels ≠ ((List.range 60).map fun i => toString (60 - i)) ++ ["now"] ∧
    (stackedBarsData []).labels.head? = some "59" ∧
    "60" ∉ (stackedBarsData []).labels ∧ "0" ∈ (stackedBarsData []).labels := by
  decide

/-- C7: whatever the series, the label axis of `createStackedBars` has 61 entries, ends in
"now", and is the same for every input. -/
theorem createStackedBars_axis (series : List TimeSeries) :
    (stackedBarsData series).labels.length = 61 ∧
    (stackedBarsData series).labels.getLast? = some "now" ∧
    (∀ other : List TimeSeries, (stackedBarsData other).labels = (stackedBarsData series).labels) ∧
    ∀ (document : Document) (id : String),
      (createStackedBars document id series).map (fun chart => chart.data.labels) =
        (getContext2d document id).map fun _ => (stackedBarsData []).labels := by
  have h : ∀ s : List TimeSeries, (stackedBarsData s).labels = stackedLegend := by
    intro s; rw [stackedBarsData_eq]
  refine ⟨?_, ?_, ?_, ?_⟩
  · rw [h]; decide
  · rw [h]; decide
  · intro other; rw [h, h]
  · intro document id
    rw [createStackedBars_eq, h]
    cases getContext2d document id <;> simp [Except.map, h]

/-! ## `loadData` -/

/-- C8, as amended: a 200 whose body decodes calls the continuation once, with the decoded
value, and logs nothing; a 200 whose body does not decode lets the exception of `JSON.parse`
escape, with no call and no log; any other status and a transport error call nothing and
log one entry. -/
theorem loadData_outcomes {J : Type} (jsonParse : String → Except JsError J) (status : Nat)
    (response : String) :
    (∀ value, status = 200 → jsonParse response = .ok value →
      loadData jsonParse (.load status response) = .ok [Effect.callback value] ∧
      callbacks (loadData jsonParse (.load status response)) = [value] ∧
      logs (loadData jsonParse (.load status response)) = []) ∧
    (∀ e, status = 200 → jsonParse response = .error e →
      loadData jsonParse (.load status response) = .error e ∧
      callbacks (loadData jsonParse (.load status response)) = [] ∧
      logs (loadData jsonParse (.load status response)) = []) ∧
    (status ≠ 200 →
      callbacks (loadData jsonParse (.load status response)) = [] ∧
      logs (loadData jsonParse (.load status response)) =
        ["Expected 200 from server but got " ++ toString status]) ∧
    callbacks (loadData jsonParse .error) = [] ∧
    logs (loadData jsonParse .error) = ["Bummer (got error when doing request)"] := by
  refine ⟨?_, ?_, ?_, rfl, rfl⟩
  · intro value hs hv
    have h : loadData jsonParse (.load status response) = .ok [Effect.callback value] := by
      simp only [loadData, onload, hs, hv, if_true]
    rw [h]
    exact ⟨rfl, rfl, rfl⟩
  · intro e hs he
    have h : loadData jsonParse (.load status response) = .error e := by
      simp only [loadData, onload, hs, he, if_true]
    rw [h]
    exact ⟨rfl, rfl, rfl⟩
  · intro hs
    have h : loadData jsonParse (.load status response) =
        .ok [Effect.log ("Expected 200 from server but got " ++ toString status)] := by
      simp only [loadData, onload, hs, if_false]
    rw [h]
    exact ⟨rfl, rfl⟩

theorem loadData_outcomes_witness :
    loadData JSON.parse (.load 200 "\x7b\"a\":1\x7d") =
      .ok [Effect.callback (Json.obj [("a", Json.num 1)])] ∧
    callbacks (loadData JSON.parse (.load 503 "Service Unavailable")) = [] ∧
    logs (loadData JSON.parse (.load 503 "Service Unavailable")) =
      ["Expected 200 from server but got 503"] :=
  ⟨((loadData_outcomes JSON.parse 200 "\x7b\"a\":1\x7d").1 _ rfl rfl).1,
   (loadData_outcomes JSON.parse 503 "Service Unavailable").2.2.1 (by decide)⟩

/-- C8, refuted as stated: on a 200 whose body is not JSON the continuation is not called. -/
theorem loadData_200_not_json :
    JSON.parse "<html></html>" = .error .syntaxError ∧
    loadData JSON.parse (.load 200 "<html></html>") = .error .syntaxError ∧
    callbacks (loadData JSON.parse (.load 200 "<html></html>")) = [] ∧
    (callbacks (loadData JSON.parse (.load 200 "<html></html>"))).length ≠ 1 :=
  ⟨rfl, rfl, rfl, by decide⟩

end Debug
